import Mathlib

/-!
Verification of the OpenRouter MCP server (gemini-cli-openrouter-mcp).

The development shallowly embeds the TypeScript sources: the canonical
variant (the file defining `validateInput`, the async `getCachedModels`
and the retrying `fetchWithRetry`) is embedded function by function.
JavaScript runtime behaviour is modelled explicitly:

* thrown errors are `JsError` values threaded through `Except`;
* string truthiness (`!s`) is a length-zero test; `undefined` and
  non-string argument values are the `JsArg` type;
* timestamps are integer milliseconds; `setTimeout` delays are recorded
  in a list instead of being slept;
* network and filesystem effects are parameters (`ServerEnv`) and
  observed side effects are returned in an `Effects` record;
* JavaScript strings are modelled through their character lists, with
  ASCII case folding standing in for `toLowerCase`.

One deliberate point of the embedding: in the retrying `fetchWithRetry`
the catch block evaluates `response?.status === 429` where `response`
is a `const` scoped to the `try` block, so reaching that disjunct at
runtime raises `ReferenceError: response is not defined` (and the file
does not typecheck under `tsc`).  The embedding reproduces the runtime
semantics of the transpiled code faithfully.
-/

namespace OpenRouterMCP

/-- A JavaScript `Error` value as observed by `catch` blocks: its
`name` (for example `"Error"`, `"AbortError"`, `"ReferenceError"`)
and its `message`. -/
structure JsError where
  name : String
  message : String
deriving DecidableEq, Repr

/-- An ordinary `new Error(msg)`: name `"Error"`. -/
def jsError (msg : String) : JsError := ⟨"Error", msg⟩

/-- The runtime error raised when the catch block of the retrying
`fetchWithRetry` evaluates the out-of-scope identifier `response`. -/
def referenceErrorJs : JsError := ⟨"ReferenceError", "response is not defined"⟩

/-- An HTTP response as the code observes it: `status`, `statusText`,
the `Retry-After` header (`none` when absent), and the result of
`response.json()` (the `body` type parameter; parse failure is folded
into it by the instantiations below). -/
structure Response (β : Type) where
  status : Nat
  statusText : String
  retryAfter : Option String
  body : β
deriving DecidableEq, Repr

/-- The WHATWG `Response.ok` flag: status in the range 200–299. -/
def Response.ok {β : Type} (r : Response β) : Bool :=
  decide (200 ≤ r.status ∧ r.status < 300)

/-- The rate-limit message built at the `status === 429` check:
`Rate limited by OpenRouter. Please wait <retryAfter ?? "10"> seconds.` -/
def rateLimitMsg (retryAfter : Option String) : String :=
  "Rate limited by OpenRouter. Please wait " ++ retryAfter.getD "10" ++ " seconds."

/-- The catch block of the retrying `fetchWithRetry`, given the caught
error: it evaluates
`attempt === retries || error.name === "AbortError" || response?.status === 429`
left to right.  The first two disjuncts rethrow the caught error; the
third reads the `try`-scoped `response` from outside its scope, which
raises a `ReferenceError` whenever it is reached.  `some e` means an
error propagates out of the iteration; `none` would mean falling
through to the backoff-and-retry tail of the catch block (which is
consequently unreachable). -/
def catchDecision (retries attempt : Nat) (e : JsError) : Option JsError :=
  if attempt = retries then some e
  else if e.name = "AbortError" then some e
  else some referenceErrorJs

/-- Loop body of the retrying `fetchWithRetry`
(`for (let attempt = 0; attempt <= retries; attempt++)`).  `f attempt`
is the outcome of the `fetch` call on that attempt (`Except.error` for
a transport-level failure such as an abort).  `fuel` counts the
remaining iterations (`retries + 1 - attempt`); the zero case is the
`throw new Error("Fetch failed after retries")` after the loop.
`delays` records every `setTimeout` backoff in milliseconds. -/
def fetchWithRetryGo {β : Type} (f : Nat → Except JsError (Response β)) (retries : Nat) :
    Nat → Nat → List Nat → Except JsError (Response β) × List Nat
  | _, 0, delays => (.error (jsError "Fetch failed after retries"), delays)
  | attempt, fuel + 1, delays =>
    match f attempt with
    | .error e =>
      match catchDecision retries attempt e with
      | some e' => (.error e', delays)
      | none => fetchWithRetryGo f retries (attempt + 1) fuel (delays ++ [2 ^ attempt * 1000])
    | .ok response =>
      if response.status = 429 then
        -- the `throw` at the 429 check is caught by this function's own catch block
        match catchDecision retries attempt (jsError (rateLimitMsg response.retryAfter)) with
        | some e' => (.error e', delays)
        | none => fetchWithRetryGo f retries (attempt + 1) fuel (delays ++ [2 ^ attempt * 1000])
      else if 500 ≤ response.status ∧ attempt < retries then
        fetchWithRetryGo f retries (attempt + 1) fuel (delays ++ [2 ^ attempt * 1000])
      else
        (.ok response, delays)

/-- The retrying `fetchWithRetry(url, options, retries = 2)` of the
canonical source file, starting at attempt 0 with `retries + 1`
iterations available. -/
def fetchWithRetry {β : Type} (f : Nat → Except JsError (Response β)) (retries : Nat) :
    Except JsError (Response β) × List Nat :=
  fetchWithRetryGo f retries 0 (retries + 1) []

/-- The single-attempt `fetchWithRetry` of the older source variant:
no loop and no catch block, so a 429 throws the rate-limit error
directly to the caller. -/
def fetchOnce {β : Type} (r : Except JsError (Response β)) : Except JsError (Response β) :=
  match r with
  | .error e => .error e
  | .ok response =>
    if response.status = 429 then .error (jsError (rateLimitMsg response.retryAfter))
    else .ok response

/-- A catalog entry (`interface OpenRouterModel`): `id` and `name`. -/
structure OpenRouterModel where
  id : String
  name : String
deriving DecidableEq, Repr

/-- The `error` field of an OpenRouter response body; its `message`
may itself be absent (`none`). -/
structure ORError where
  message : Option String
deriving DecidableEq, Repr

/-- The `message` object of a completion choice; `content` is `none`
when the field is absent and `some s` when it is the string `s`. -/
structure ORMessage where
  content : Option String
deriving DecidableEq, Repr

/-- A completion choice; `message` is `none` when the field is absent. -/
structure ORChoice where
  message : Option ORMessage
deriving DecidableEq, Repr

/-- A parsed OpenRouter JSON body (`interface OpenRouterResponse`):
every field optional. -/
structure ORBody where
  data : Option (List OpenRouterModel)
  choices : Option (List ORChoice)
  error : Option ORError
deriving DecidableEq, Repr

/-- The body type the handler works with: `response.json()` either
parses to an `ORBody` or throws a `JsError`. -/
abbrev HttpBody := Except JsError ORBody

/-- State of the cache file `.models-cache.json` as the filesystem
presents it to `getCachedModels`:
`absent` — `fs.stat` fails with `ENOENT`;
`statError` — `fs.stat` fails with some other error;
`present mtimeMs parsed` — the file exists with the given modification
time (milliseconds); `parsed` is `some models` when reading and
`JSON.parse` succeed and `none` when the read or the parse throws. -/
inductive CacheState where
  | absent
  | statError
  | present (mtimeMs : Int) (parsed : Option (List OpenRouterModel))
deriving DecidableEq, Repr

/-- The cache TTL: `5 * 60 * 1000` milliseconds. -/
def CACHE_TTL : Int := 5 * 60 * 1000

/-- The async `getCachedModels` of the canonical source file, as a
function of the current time (`Date.now()`, ms) and the cache state.
Returns the value produced (`null` is `none`) together with whether
the `fs.unlink(CACHE_FILE)` in the catch block was attempted.  The
catch block deletes the file for every error whose `code` is not
`"ENOENT"`; a fresh-but-unparseable file and a failing `stat` reach
it, while a stale file returns `null` without ever being read. -/
def getCachedModels (now : Int) (cache : CacheState) :
    Option (List OpenRouterModel) × Bool :=
  match cache with
  | .absent => (none, false)
  | .statError => (none, true)
  | .present mtimeMs parsed =>
    if now - mtimeMs < CACHE_TTL then
      match parsed with
      | some models => (some models, false)
      | none => (none, true)
    else
      (none, false)

/-- A JavaScript value arriving in a tool-call argument slot:
`undef` for an absent argument, `str s` for a string, `other truthy`
abstracting every non-string value by its truthiness. -/
inductive JsArg where
  | undef
  | str (s : String)
  | other (truthy : Bool)
deriving DecidableEq, Repr

/-- JavaScript falsiness `!v`: `undefined` is falsy, a string is falsy
exactly when empty. -/
def jsFalsy : JsArg → Bool
  | .undef => true
  | .str s => s.length = 0
  | .other truthy => !truthy

/-- The `typeof v !== "string"` test (negated). -/
def jsIsStr : JsArg → Bool
  | .str _ => true
  | _ => false

/-- The `v.length > n` test.  It is only ever evaluated after the
falsiness and string tests (JavaScript `||` short-circuits), so the
non-string branches are unreachable in `validateInput`. -/
def jsLenGt (v : JsArg) (n : Nat) : Bool :=
  match v with
  | .str s => decide (n < s.length)
  | _ => false

/-- The `validateInput(modelId, prompt)` function: throws on a falsy,
non-string or over-255-character `modelId`, then on a falsy,
non-string or over-15000-character `prompt`. -/
def validateInput (modelId promptArg : JsArg) : Except JsError Unit :=
  if jsFalsy modelId || !jsIsStr modelId || jsLenGt modelId 255 then
    .error (jsError "Invalid or missing modelId")
  else if jsFalsy promptArg || !jsIsStr promptArg || jsLenGt promptArg 15000 then
    .error (jsError "Prompt must be a string between 1 and 15000 characters")
  else
    .ok ()

/-- True exactly on `Except.ok`. -/
def exceptOk {ε α : Type} : Except ε α → Bool
  | .ok _ => true
  | .error _ => false

/-- Character-list substring search: does `needle` occur contiguously
inside `hay`?  (Structural model of `String.prototype.includes`.) -/
def charsContain (hay needle : List Char) : Bool :=
  needle.isPrefixOf hay ||
    match hay with
    | [] => false
    | _ :: rest => charsContain rest needle

/-- ASCII model of `s.toLowerCase()`, as a character list. -/
def lowerChars (s : String) : List Char :=
  s.data.map Char.toLower

/-- The `a.toLowerCase().includes(b.toLowerCase())` test. -/
def jsIncludes (hay needle : String) : Bool :=
  charsContain (lowerChars hay) (lowerChars needle)

/-- The `s.endsWith(suffix)` test, over character lists. -/
def jsEndsWith (s suffixStr : String) : Bool :=
  suffixStr.data.isSuffixOf s.data

/-- The two filters of `list_models`: `free` keeps ids ending in
`":free"`; a truthy (non-empty) `query` keeps case-insensitive
substring matches against id or name.  Applied in that order. -/
def filterModels (free : Bool) (query : Option String) (models : List OpenRouterModel) :
    List OpenRouterModel :=
  let afterFree := if free then models.filter (fun m => jsEndsWith m.id ":free") else models
  match query with
  | none => afterFree
  | some q =>
    if q.length = 0 then afterFree
    else afterFree.filter (fun m => jsIncludes m.id q || jsIncludes m.name q)

/-- The markdown table header emitted by `list_models`. -/
def tableHeader : String := "| Model ID | Tier | Name |\n| :--- | :--- | :--- |"

/-- One markdown row: backticked id, `Free`/`Paid` tier from the
`":free"` id suffix, and name. -/
def modelRow (m : OpenRouterModel) : String :=
  "| \x60" ++ m.id ++ "\x60 | " ++ (if jsEndsWith m.id ":free" then "Free" else "Paid") ++
    " | " ++ m.name ++ " |"

/-- The rendering step of `list_models`: a header-plus-rows table when
the filtered list is non-empty, otherwise the fixed no-models message. -/
def renderModels (models : List OpenRouterModel) : String :=
  let rows := String.intercalate "\n" (models.map modelRow)
  if 0 < models.length then tableHeader ++ "\n" ++ rows
  else "No models found matching criteria."

/-- The external world of one tool call: the clock, the cache file
state, and the per-attempt outcomes of the catalog and completion
fetches. -/
structure ServerEnv where
  now : Int
  cache : CacheState
  catalogFetch : Nat → Except JsError (Response HttpBody)
  completionFetch : Nat → Except JsError (Response HttpBody)

/-- Side effects observed while handling one tool call. -/
structure Effects where
  catalogFetched : Bool
  completionFetched : Bool
  cacheDeleted : Bool
  cacheWritten : Option (List OpenRouterModel)
deriving DecidableEq, Repr

/-- No side effects. -/
def noEffects : Effects := ⟨false, false, false, none⟩

/-- The fetch-and-cache arm of `list_models`, entered when the cache
read produced `null`: fetch the catalog (retrying), require `ok`,
parse, default a missing `data` field to `[]`, write the cache, then
filter and render. -/
def listModelsFetch (free : Bool) (query : Option String) (env : ServerEnv)
    (deleted : Bool) : Except JsError String × Effects :=
  match (fetchWithRetry env.catalogFetch 2).1 with
  | .error e => (.error e, ⟨true, false, deleted, none⟩)
  | .ok response =>
    if !response.ok then
      (.error (jsError ("OpenRouter API error: " ++ toString response.status ++ " " ++
        response.statusText)), ⟨true, false, deleted, none⟩)
    else
      match response.body with
      | .error e => (.error e, ⟨true, false, deleted, none⟩)
      | .ok body =>
        let models := body.data.getD []
        (.ok (renderModels (filterModels free query models)),
          ⟨true, false, deleted, some models⟩)

/-- The `list_models` branch of the call handler:
`let models = args?.forceRefresh ? null : await getCachedModels()`,
fetch on `!models`, then filter and render. -/
def listModelsOp (free : Bool) (query : Option String) (forceRefresh : Bool)
    (env : ServerEnv) : Except JsError String × Effects :=
  let cacheRead := if forceRefresh then (none, false) else getCachedModels env.now env.cache
  match cacheRead.1 with
  | none => listModelsFetch free query env cacheRead.2
  | some models =>
    (.ok (renderModels (filterModels free query models)), ⟨false, false, cacheRead.2, none⟩)

/-- The `!json.choices?.[0]?.message?.content` access path: `some c`
exactly when every link is present and the content string is truthy
(non-empty); `none` otherwise. -/
def extractContent (body : ORBody) : Option String :=
  match body.choices with
  | none => none
  | some choices =>
    match choices.head? with
    | none => none
    | some choice =>
      match choice.message with
      | none => none
      | some msg =>
        match msg.content with
        | none => none
        | some c => if c.length = 0 then none else some c

/-- The error message computed on a non-`ok` completion response:
`errorJson.error?.message || "HTTP error <status>"`, with the fallback
also taken when the body fails to parse or the message is falsy. -/
def upstreamErrMsg (response : Response HttpBody) : String :=
  let fallback := "HTTP error " ++ toString response.status
  match response.body with
  | .error _ => fallback
  | .ok body =>
    match body.error with
    | none => fallback
    | some err =>
      match err.message with
      | none => fallback
      | some s => if s.length = 0 then fallback else s

/-- The `prompt` branch of the call handler: validate, POST via the
retrying fetch, map non-`ok` responses to `OpenRouter API Error: …`,
and require a truthy `choices[0].message.content` on success. -/
def promptOp (modelId promptArg : JsArg) (env : ServerEnv) :
    Except JsError String × Effects :=
  match validateInput modelId promptArg with
  | .error e => (.error e, noEffects)
  | .ok _ =>
    let fx : Effects := ⟨false, true, false, none⟩
    match (fetchWithRetry env.completionFetch 2).1 with
    | .error e => (.error e, fx)
    | .ok response =>
      if !response.ok then
        (.error (jsError ("OpenRouter API Error: " ++ upstreamErrMsg response)), fx)
      else
        match response.body with
        | .error e => (.error e, fx)
        | .ok body =>
          match extractContent body with
          | none => (.error (jsError "Invalid response from OpenRouter: Missing content"), fx)
          | some c => (.ok c, fx)

/-- The argument bag of a tool call, with JavaScript truthiness of
`free` and `forceRefresh` already folded into booleans. -/
structure ArgsBag where
  free : Bool
  query : Option String
  forceRefresh : Bool
  modelId : JsArg
  promptArg : JsArg

/-- The body of the `CallToolRequestSchema` handler's `try` block:
dispatch on the tool name, with `Unknown tool: <name>` for anything
other than the two known tools. -/
def runTool (name : String) (args : ArgsBag) (env : ServerEnv) :
    Except JsError String × Effects :=
  if name = "list_models" then listModelsOp args.free args.query args.forceRefresh env
  else if name = "prompt" then promptOp args.modelId args.promptArg env
  else (.error (jsError ("Unknown tool: " ++ name)), noEffects)

/-- The response envelope returned to the transport: a single text
content item and the `isError` flag. -/
structure ToolResult where
  isError : Bool
  text : String
deriving DecidableEq, Repr

/-- The whole `CallToolRequestSchema` handler: run the tool body and
convert any thrown error into an `isError` result whose text is
`Error: ` followed by the error's message. -/
def handleCallTool (name : String) (args : ArgsBag) (env : ServerEnv) :
    ToolResult × Effects :=
  match runTool name args env with
  | (.ok text, fx) => (⟨false, text⟩, fx)
  | (.error e, fx) => (⟨true, "Error: " ++ e.message⟩, fx)

/-! ### Shared concrete inputs and helper lemmas -/

/-- A fetch function whose every attempt fails at the transport level;
used as the unused half of concrete environments. -/
def netFail : Nat → Except JsError (Response HttpBody) :=
  fun _ => .error (jsError "network unavailable")

/-- An environment with no cache file and failing network. -/
def deadEnv : ServerEnv := ⟨0, .absent, netFail, netFail⟩

/-- A well-formed `prompt` argument bag. -/
def promptArgs : ArgsBag := ⟨false, none, false, .str "m", .str "hi"⟩

/-- The handler's effects are the dispatched operation's effects. -/
theorem handle_effects (name : String) (args : ArgsBag) (env : ServerEnv) :
    (handleCallTool name args env).2 = (runTool name args env).2 := by
  unfold handleCallTool
  rcases runTool name args env with ⟨res, fx⟩
  cases res <;> rfl

/-- A thrown error becomes an error-flagged `Error: <message>` result. -/
theorem handle_error_text (name : String) (args : ArgsBag) (env : ServerEnv)
    (e : JsError) (fx : Effects) (h : runTool name args env = (.error e, fx)) :
    handleCallTool name args env = (⟨true, "Error: " ++ e.message⟩, fx) := by
  unfold handleCallTool
  rw [h]

/-- A returned text becomes a non-error result carrying it. -/
theorem handle_ok_text (name : String) (args : ArgsBag) (env : ServerEnv)
    (t : String) (fx : Effects) (h : runTool name args env = (.ok t, fx)) :
    handleCallTool name args env = (⟨false, t⟩, fx) := by
  unfold handleCallTool
  rw [h]

/-- Dispatch on the literal name `"list_models"`. -/
theorem runTool_list (args : ArgsBag) (env : ServerEnv) :
    runTool "list_models" args env = listModelsOp args.free args.query args.forceRefresh env := by
  unfold runTool
  rw [if_pos rfl]

/-- Dispatch on the literal name `"prompt"`. -/
theorem runTool_prompt (args : ArgsBag) (env : ServerEnv) :
    runTool "prompt" args env = promptOp args.modelId args.promptArg env := by
  unfold runTool
  rw [if_neg (by decide), if_pos rfl]

/-- Every exit of the fetch-and-cache arm records a catalog fetch. -/
theorem listModelsFetch_fetched (free : Bool) (query : Option String) (env : ServerEnv)
    (deleted : Bool) : (listModelsFetch free query env deleted).2.catalogFetched = true := by
  unfold listModelsFetch
  split
  · rfl
  · split
    · rfl
    · split <;> rfl

/-- The `prompt` operation touches the network exactly when validation
passes. -/
theorem promptOp_fetched (m p : JsArg) (env : ServerEnv) :
    (promptOp m p env).2.completionFetched = exceptOk (validateInput m p) := by
  unfold promptOp
  cases h : validateInput m p with
  | error e => rfl
  | ok u =>
    simp only [exceptOk]
    split
    · rfl
    · split
      · rfl
      · split
        · rfl
        · split <;> rfl

/-- A first-attempt `ok` response is returned as-is, with no backoff. -/
theorem fetchWithRetry_first_ok {β : Type} (f : Nat → Except JsError (Response β))
    (r : Response β) (hf : f 0 = .ok r) (hok : r.ok = true) :
    fetchWithRetry f 2 = (.ok r, []) := by
  have h1 : 200 ≤ r.status ∧ r.status < 300 := by
    simpa [Response.ok] using hok
  unfold fetchWithRetry fetchWithRetryGo
  rw [hf]
  dsimp only
  rw [if_neg (by omega)]
  rw [if_neg (by rintro ⟨h5, -⟩; omega)]

/-- Evaluation of the `prompt` operation on a first-attempt 2xx
response with a parsed body. -/
theorem promptOp_ok_eval (m p : JsArg) (env : ServerEnv) (r : Response HttpBody)
    (b : ORBody) (hv : exceptOk (validateInput m p) = true)
    (hf : env.completionFetch 0 = .ok r) (hok : r.ok = true) (hb : r.body = .ok b) :
    promptOp m p env =
      (match extractContent b with
       | none => (.error (jsError "Invalid response from OpenRouter: Missing content"),
           ⟨false, true, false, none⟩)
       | some c => (.ok c, ⟨false, true, false, none⟩)) := by
  obtain ⟨u, hu⟩ : ∃ u, validateInput m p = .ok u := by
    cases h : validateInput m p with
    | ok u => exact ⟨u, rfl⟩
    | error e => rw [h] at hv; exact absurd hv (by simp [exceptOk])
  unfold promptOp
  rw [hu, fetchWithRetry_first_ok env.completionFetch r hf hok]
  simp only [hok, Bool.not_true, Bool.false_eq_true, if_false, hb]

/-! ### C1 — 429 handling in the retrying fetchWithRetry -/

/-- Claim C1 (code bug, evaluated): a 429 on a non-final attempt
makes the catch block evaluate `response?.status === 429` with
`response` out of scope, so the call fails immediately with
`ReferenceError: response is not defined` and an empty backoff list —
not with the rate-limit message the claim (and the code's own 429
branch) intends.  The rate-limit message with the `Retry-After` value
only survives when the 429 arrives on the final attempt, where the
`attempt === retries` disjunct short-circuits first. -/
theorem claim1_429_raises_reference_error :
    fetchWithRetry (fun _ =>
        Except.ok (⟨429, "Too Many Requests", some "7", ()⟩ : Response Unit)) 2
      = (.error ⟨"ReferenceError", "response is not defined"⟩, [])
    ∧ fetchWithRetry (fun n =>
        Except.ok (⟨if n < 2 then 503 else 429, "Too Many Requests", some "7", ()⟩ :
          Response Unit)) 2
      = (.error ⟨"Error", "Rate limited by OpenRouter. Please wait 7 seconds."⟩,
          [1000, 2000]) :=
  ⟨rfl, rfl⟩

/-- Characterisation of a cache hit: file present, fresh, parsed. -/
theorem getCachedModels_hit (now : Int) (cache : CacheState)
    (models : List OpenRouterModel) :
    (getCachedModels now cache).1 = some models ↔
      ∃ mt, cache = .present mt (some models) ∧ now - mt < 300000 := by
  cases cache with
  | absent => simp [getCachedModels]
  | statError => simp [getCachedModels]
  | present mt parsed =>
    cases parsed with
    | none =>
      simp only [getCachedModels, CACHE_TTL]
      split <;> simp
    | some l =>
      simp only [getCachedModels, CACHE_TTL]
      split
      next hfresh =>
        constructor
        · intro h
          have hl : l = models := by simpa using h
          exact ⟨mt, by rw [hl], by omega⟩
        · rintro ⟨mt', heq, -⟩
          cases heq
          rfl
      next hfresh =>
        constructor
        · intro h
          exact absurd h (by simp)
        · rintro ⟨mt', heq, hlt⟩
          cases heq
          omega

/-- Characterisation of the deletion side effect: `fs.stat` failing
with a non-`ENOENT` error, or a fresh file whose read/parse fails. -/
theorem getCachedModels_del (now : Int) (cache : CacheState) :
    (getCachedModels now cache).2 = true ↔
      cache = .statError ∨ ∃ mt, cache = .present mt none ∧ now - mt < 300000 := by
  cases cache with
  | absent => simp [getCachedModels]
  | statError => simp [getCachedModels]
  | present mt parsed =>
    cases parsed with
    | none =>
      simp only [getCachedModels, CACHE_TTL]
      split
      next hfresh =>
        constructor
        · intro _
          exact Or.inr ⟨mt, rfl, by omega⟩
        · intro _
          rfl
      next hfresh =>
        constructor
        · intro h
          exact absurd h (by simp)
        · rintro (h | ⟨mt', heq, hlt⟩)
          · exact absurd h (by simp)
          · cases heq
            omega
    | some l =>
      simp only [getCachedModels, CACHE_TTL]
      split
      · constructor
        · intro h
          exact absurd h (by simp)
        · rintro (h | ⟨mt', heq, hlt⟩)
          · exact absurd h (by simp)
          · cases heq
      · constructor
        · intro h
          exact absurd h (by simp)
        · rintro (h | ⟨mt', heq, hlt⟩)
          · exact absurd h (by simp)
          · cases heq

/-- Deletion only happens on paths that report a miss. -/
theorem getCachedModels_del_miss (now : Int) (cache : CacheState)
    (h : (getCachedModels now cache).2 = true) :
    (getCachedModels now cache).1 = none := by
  cases cache with
  | absent => rfl
  | statError => rfl
  | present mt parsed =>
    cases parsed with
    | none =>
      simp only [getCachedModels, CACHE_TTL]
      split <;> rfl
    | some l =>
      simp only [getCachedModels, CACHE_TTL] at h ⊢
      split at h
      · exact absurd h (by simp)
      · exact absurd h (by simp)

/-! ### C2 — cache read and the fetch gate of list_models -/

/-- Claim C2: `getCachedModels` produces the stored list exactly when
the file exists, `Date.now() - mtimeMs` is under 300000 ms (300 s)
and the contents parse — every other state is a miss — and
`list_models` invokes the catalog fetch exactly when `forceRefresh`
is set or that read reports a miss. -/
theorem claim2_cache_read_gates_fetch (env : ServerEnv) (args : ArgsBag)
    (models : List OpenRouterModel) :
    ((getCachedModels env.now env.cache).1 = some models ↔
      ∃ mt, env.cache = .present mt (some models) ∧ env.now - mt < 300000)
    ∧ ((handleCallTool "list_models" args env).2.catalogFetched =
        (args.forceRefresh || ((getCachedModels env.now env.cache).1).isNone)) := by
  refine ⟨getCachedModels_hit env.now env.cache models, ?_⟩
  rw [handle_effects, runTool_list]
  unfold listModelsOp
  cases hforce : args.forceRefresh with
  | true => simp [listModelsFetch_fetched]
  | false =>
    cases hread : (getCachedModels env.now env.cache).1 with
    | none => simp [hread, listModelsFetch_fetched]
    | some l => simp [hread]

/-! ### C6 — deletion of an unreadable cache file -/

/-- Claim C6 counterexample: a cache file whose contents fail to parse
but whose age is exactly 300 s is skipped by the TTL check before it
is ever read, so the read reports a miss without attempting the
deletion the claim requires. -/
theorem claim6_counterexample :
    ¬ ((getCachedModels 300000 (CacheState.present 0 none)).2 = true) := by
  decide

/-- Claim C6 (amended): the read deletes the cache file exactly when
`fs.stat` itself fails with a non-`ENOENT` error, or the file is
within the TTL and its read/parse fails; deletion always accompanies
a reported miss, and an absent file is a miss with no deletion
attempt.  (A stale unreadable file is skipped without being read and
therefore not deleted.) -/
theorem claim6_amended_delete_on_fresh_failure (now : Int) (cache : CacheState) :
    ((getCachedModels now cache).2 = true ↔
      cache = .statError ∨ ∃ mt, cache = .present mt none ∧ now - mt < 300000)
    ∧ (getCachedModels now .absent = (none, false))
    ∧ ((getCachedModels now cache).2 = true → (getCachedModels now cache).1 = none) := by
  refine ⟨?_, rfl, ?_⟩
  · cases cache with
    | absent => simp [getCachedModels]
    | statError => simp [getCachedModels]
    | present mt parsed =>
      simp only [getCachedModels]
      split
      · cases parsed with
        | none => simp_all [CACHE_TTL]
        | some l => simp_all [CACHE_TTL]
      · cases parsed with
        | none =>
          simp only [CACHE_TTL] at *
          constructor
          · intro h; exact absurd h (by simp)
          · rintro (h | ⟨mt', heq, hlt⟩)
            · exact absurd h (by simp)
            · cases heq; omega
        | some l => simp_all [CACHE_TTL]
  · cases cache with
    | absent => simp [getCachedModels]
    | statError => simp [getCachedModels]
    | present mt parsed =>
      simp only [getCachedModels]
      split
      · cases parsed <;> simp
      · simp

/-- Witness for the amended C6: a fresh unparseable file (age 0) is
both deleted and reported as a miss. -/
theorem claim6_amended_witness :
    (getCachedModels 0 (CacheState.present 0 none)).2 = true ∧
    (getCachedModels 0 (CacheState.present 0 none)).1 = none := by
  have h := claim6_amended_delete_on_fresh_failure 0 (CacheState.present 0 none)
  have hdel : (getCachedModels 0 (CacheState.present 0 none)).2 = true :=
    h.1.mpr (Or.inr ⟨0, rfl, by decide⟩)
  exact ⟨hdel, h.2.2 hdel⟩

/-! ### C3 — prompt input validation -/

/-- Boolean form of `validateInput`'s outcome. -/
theorem validateInput_okBool (m p : JsArg) :
    exceptOk (validateInput m p) =
      (!(jsFalsy m || !jsIsStr m || jsLenGt m 255) &&
       !(jsFalsy p || !jsIsStr p || jsLenGt p 15000)) := by
  unfold validateInput
  split
  next h => simp [exceptOk, h]
  next h =>
    split
    next h2 => simp [exceptOk, h, h2]
    next h2 => simp [exceptOk, h, h2]

/-- One argument passes its checks exactly when it is a non-empty
string of at most `n` characters. -/
theorem validArg_iff (v : JsArg) (n : Nat) :
    (jsFalsy v || !jsIsStr v || jsLenGt v n) = false ↔
      ∃ s, v = .str s ∧ s.length ≠ 0 ∧ s.length ≤ n := by
  cases v with
  | undef => simp [jsFalsy, jsIsStr, jsLenGt]
  | other t => cases t <;> simp [jsFalsy, jsIsStr, jsLenGt]
  | str s =>
    simp [jsFalsy, jsIsStr, jsLenGt]

/-- Validation succeeds exactly on a non-empty `modelId` of at most
255 characters and a non-empty prompt of at most 15000 characters. -/
theorem validateInput_ok_iff (m p : JsArg) :
    exceptOk (validateInput m p) = true ↔
      ((∃ s, m = .str s ∧ s.length ≠ 0 ∧ s.length ≤ 255) ∧
       (∃ t, p = .str t ∧ t.length ≠ 0 ∧ t.length ≤ 15000)) := by
  rw [validateInput_okBool]
  rw [Bool.and_eq_true, Bool.not_eq_true', Bool.not_eq_true']
  rw [validArg_iff, validArg_iff]

/-- Claim C3: `prompt` validation accepts exactly non-empty strings
within the 255/15000 ceilings, the completion network call happens
exactly when validation passes, a validation failure surfaces as an
error result, and the 15000/15001 prompt-length boundary behaves as
specified. -/
theorem claim3_prompt_validation (m p : JsArg) (args : ArgsBag) (env : ServerEnv) :
    (exceptOk (validateInput m p) = true ↔
      ((∃ s, m = .str s ∧ s.length ≠ 0 ∧ s.length ≤ 255) ∧
       (∃ t, p = .str t ∧ t.length ≠ 0 ∧ t.length ≤ 15000)))
    ∧ ((handleCallTool "prompt" args env).2.completionFetched =
        exceptOk (validateInput args.modelId args.promptArg))
    ∧ (exceptOk (validateInput args.modelId args.promptArg) = false →
        (handleCallTool "prompt" args env).1.isError = true)
    ∧ exceptOk (validateInput (.str "m")
        (.str (String.mk (List.replicate 15000 'a')))) = true
    ∧ exceptOk (validateInput (.str "m")
        (.str (String.mk (List.replicate 15001 'a')))) = false := by
  refine ⟨validateInput_ok_iff m p, ?_, ?_, ?_, ?_⟩
  · rw [handle_effects, runTool_prompt]
    exact promptOp_fetched args.modelId args.promptArg env
  · intro h
    cases hv : validateInput args.modelId args.promptArg with
    | ok u => rw [hv] at h; simp [exceptOk] at h
    | error e =>
      have hrun : runTool "prompt" args env = (.error e, noEffects) := by
        rw [runTool_prompt]
        unfold promptOp
        rw [hv]
      rw [handle_error_text "prompt" args env e noEffects hrun]
  · have hlen : (String.mk (List.replicate 15000 'a')).length = 15000 :=
      List.length_replicate 15000 'a'
    refine (validateInput_ok_iff _ _).mpr
      ⟨⟨"m", rfl, by decide, by decide⟩, ⟨_, rfl, ?_, ?_⟩⟩
    · rw [hlen]; omega
    · rw [hlen]
  · have hlen : (String.mk (List.replicate 15001 'a')).length = 15001 :=
      List.length_replicate 15001 'a'
    rw [validateInput_okBool]
    have h2 : jsLenGt (JsArg.str (String.mk (List.replicate 15001 'a'))) 15000 = true := by
      simp only [jsLenGt]
      rw [hlen]
      decide
    rw [h2]
    simp only [Bool.or_true, Bool.not_true, Bool.and_false]

/-- Witness for C3: an empty `modelId` fails validation, produces an
error result, and triggers no completion fetch. -/
theorem claim3_witness :
    exceptOk (validateInput (JsArg.str "") (JsArg.str "x")) = false
    ∧ (handleCallTool "prompt" ⟨false, none, false, .str "", .str "x"⟩ deadEnv).2.completionFetched
        = false
    ∧ (handleCallTool "prompt" ⟨false, none, false, .str "", .str "x"⟩ deadEnv).1.isError
        = true := by
  have h := claim3_prompt_validation (.str "") (.str "x")
    ⟨false, none, false, .str "", .str "x"⟩ deadEnv
  exact ⟨by decide, h.2.1.trans (by decide), h.2.2.1 (by decide)⟩

/-! ### C5 — list_models filters -/

/-- A sample catalog used by concrete witnesses. -/
def modelsSample : List OpenRouterModel :=
  [⟨"meta-llama/llama-3:free", "Llama 3"⟩, ⟨"openai/gpt-4", "GPT-4"⟩]

/-- Claim C5: with neither filter the list is untouched; each filter
alone keeps exactly its matches; together they keep exactly the
entries satisfying the conjunction, i.e. the two sequential filters
equal one filter by the conjoined predicate. -/
theorem claim5_filters (models : List OpenRouterModel) (q : String) (hq : q.length ≠ 0) :
    filterModels false none models = models
    ∧ filterModels true none models = models.filter (fun m => jsEndsWith m.id ":free")
    ∧ filterModels false (some q) models
        = models.filter (fun m => jsIncludes m.id q || jsIncludes m.name q)
    ∧ filterModels true (some q) models
        = models.filter (fun m =>
            jsEndsWith m.id ":free" && (jsIncludes m.id q || jsIncludes m.name q))
    ∧ (∀ m, m ∈ filterModels true (some q) models ↔
        m ∈ models ∧ jsEndsWith m.id ":free" = true ∧
          (jsIncludes m.id q || jsIncludes m.name q) = true) := by
  have h4 : filterModels true (some q) models
      = models.filter (fun m =>
          jsEndsWith m.id ":free" && (jsIncludes m.id q || jsIncludes m.name q)) := by
    simp [filterModels, hq, List.filter_filter, Bool.and_comm]
  refine ⟨rfl, rfl, ?_, h4, ?_⟩
  · simp [filterModels, hq]
  · intro m
    rw [h4, List.mem_filter, Bool.and_eq_true]

/-- Witness for C5: `free=true, query="llama"` on the sample catalog
keeps exactly the one free Llama entry. -/
theorem claim5_witness :
    "llama".length ≠ 0
    ∧ filterModels true (some "llama") modelsSample
        = modelsSample.filter (fun m =>
            jsEndsWith m.id ":free" && (jsIncludes m.id "llama" || jsIncludes m.name "llama"))
    ∧ filterModels true (some "llama") modelsSample
        = [⟨"meta-llama/llama-3:free", "Llama 3"⟩] :=
  ⟨by decide, (claim5_filters modelsSample "llama" (by decide)).2.2.2.1, by decide⟩

/-! ### C7 — exponential backoff on 5xx -/

/-- One 5xx iteration with attempts remaining: wait `2^attempt`
seconds and move to the next attempt. -/
theorem fetchWithRetryGo_5xx_step {β : Type} (f : Nat → Except JsError (Response β))
    (att fuel : Nat) (ds : List Nat) (r : Response β)
    (hf : f att = .ok r) (hs : 500 ≤ r.status) (hlt : att < 2) :
    fetchWithRetryGo f 2 att (fuel + 1) ds =
      fetchWithRetryGo f 2 (att + 1) fuel (ds ++ [2 ^ att * 1000]) := by
  unfold fetchWithRetryGo
  rw [hf]
  dsimp only
  rw [if_neg (by omega), if_pos ⟨hs, hlt⟩]
  cases fuel <;> rfl

/-- The final attempt returns the response unchanged when it is not
a 429. -/
theorem fetchWithRetryGo_last {β : Type} (f : Nat → Except JsError (Response β))
    (ds : List Nat) (r : Response β) (hf : f 2 = .ok r) (h429 : r.status ≠ 429) :
    fetchWithRetryGo f 2 2 1 ds = (.ok r, ds) := by
  unfold fetchWithRetryGo
  rw [hf]
  dsimp only
  rw [if_neg h429, if_neg (by rintro ⟨-, h⟩; omega)]

/-- Claim C7: three consecutive 5xx responses with `maxRetries = 2`
retry twice, backing off 1000 ms then 2000 ms (`2^attempt` seconds),
and the exhausted call returns the last response instead of raising. -/
theorem claim7_5xx_backoff {β : Type} (f : Nat → Except JsError (Response β))
    (r0 r1 r2 : Response β)
    (h0 : f 0 = .ok r0) (h1 : f 1 = .ok r1) (h2 : f 2 = .ok r2)
    (hs0 : 500 ≤ r0.status) (hs1 : 500 ≤ r1.status) (hs2 : 500 ≤ r2.status) :
    fetchWithRetry f 2 = (.ok r2, [1000, 2000]) := by
  unfold fetchWithRetry
  rw [show (2 + 1 : Nat) = 2 + 1 from rfl,
    fetchWithRetryGo_5xx_step f 0 2 [] r0 h0 hs0 (by omega)]
  have e1 : ([] : List Nat) ++ [2 ^ 0 * 1000] = [1000] := by norm_num
  rw [e1, show (0 + 1 : Nat) = 1 from rfl,
    fetchWithRetryGo_5xx_step f 1 1 [1000] r1 h1 hs1 (by omega)]
  have e2 : [1000] ++ [2 ^ 1 * 1000] = [1000, 2000] := by norm_num
  rw [e2, show (1 + 1 : Nat) = 2 from rfl,
    fetchWithRetryGo_last f [1000, 2000] r2 h2 (by omega)]

/-- Witness for C7: an endpoint answering 503 on every attempt. -/
theorem claim7_witness :
    fetchWithRetry (fun _ =>
        Except.ok (⟨503, "Service Unavailable", none, ()⟩ : Response Unit)) 2
      = (.ok ⟨503, "Service Unavailable", none, ()⟩, [1000, 2000]) :=
  claim7_5xx_backoff _ _ _ _ rfl rfl rfl (by decide) (by decide) (by decide)

/-! ### C4 and C10 — content extraction from a 2xx completion -/

/-- The `prompt` dispatch expressed through `promptOp`. -/
theorem handle_prompt (args : ArgsBag) (env : ServerEnv) :
    handleCallTool "prompt" args env =
      (match promptOp args.modelId args.promptArg env with
       | (.ok t, fx) => (⟨false, t⟩, fx)
       | (.error e, fx) => (⟨true, "Error: " ++ e.message⟩, fx)) := by
  unfold handleCallTool
  rw [runTool_prompt]

/-- Claim C4: on a first-attempt 2xx completion response whose body
parses, the operation returns `choices[0].message.content` when the
truthiness check accepts it, and fails with the invalid-response
message when the access path is absent (or the content falsy) instead
of returning empty text. -/
theorem claim4_content_extraction (args : ArgsBag) (env : ServerEnv)
    (r : Response HttpBody) (b : ORBody)
    (hv : exceptOk (validateInput args.modelId args.promptArg) = true)
    (hf : env.completionFetch 0 = .ok r) (hok : r.ok = true) (hb : r.body = .ok b) :
    (extractContent b = none →
      (handleCallTool "prompt" args env).1 =
        ⟨true, "Error: Invalid response from OpenRouter: Missing content"⟩)
    ∧ (∀ c, extractContent b = some c →
        (handleCallTool "prompt" args env).1 = ⟨false, c⟩) := by
  have hp := promptOp_ok_eval args.modelId args.promptArg env r b hv hf hok hb
  constructor
  · intro hnone
    rw [hnone] at hp
    rw [handle_prompt, hp]
    rfl
  · intro c hsome
    rw [hsome] at hp
    rw [handle_prompt, hp]

/-- A completion endpoint that answers 2xx with an empty `choices`
array: `choices[0]` is absent. -/
def missingContentEnv : ServerEnv :=
  ⟨0, .absent, netFail, fun _ => .ok ⟨200, "OK", none, .ok ⟨none, some [], none⟩⟩⟩

/-- Witness for C4: the 2xx-without-content case fails with the
invalid-response message. -/
theorem claim4_witness :
    (handleCallTool "prompt" promptArgs missingContentEnv).1 =
      ⟨true, "Error: Invalid response from OpenRouter: Missing content"⟩ :=
  (claim4_content_extraction promptArgs missingContentEnv
      ⟨200, "OK", none, .ok ⟨none, some [], none⟩⟩ ⟨none, some [], none⟩
      (by decide) rfl (by decide) rfl).1 rfl

/-- Claim C10: a 2xx completion whose `choices[0].message.content` is
present but the empty string is rejected with the missing-content
error, because the presence check is a falsiness check. -/
theorem claim10_empty_content_rejected (args : ArgsBag) (env : ServerEnv)
    (r : Response HttpBody) (b : ORBody) (rest : List ORChoice)
    (hv : exceptOk (validateInput args.modelId args.promptArg) = true)
    (hf : env.completionFetch 0 = .ok r) (hok : r.ok = true) (hb : r.body = .ok b)
    (hc : b.choices = some ({ message := some { content := some "" } } :: rest)) :
    (handleCallTool "prompt" args env).1 =
      ⟨true, "Error: Invalid response from OpenRouter: Missing content"⟩ := by
  have hnone : extractContent b = none := by
    unfold extractContent
    rw [hc]
    rfl
  have hp := promptOp_ok_eval args.modelId args.promptArg env r b hv hf hok hb
  rw [hnone] at hp
  rw [handle_prompt, hp]
  rfl

/-- A completion endpoint answering 2xx with `content: ""`. -/
def emptyContentEnv : ServerEnv :=
  ⟨0, .absent, netFail,
    fun _ => .ok ⟨200, "OK", none, .ok ⟨none, some [⟨some ⟨some ""⟩⟩], none⟩⟩⟩

/-- Witness for C10: the empty-content case fails with the
missing-content error rather than returning empty text. -/
theorem claim10_witness :
    (handleCallTool "prompt" promptArgs emptyContentEnv).1 =
      ⟨true, "Error: Invalid response from OpenRouter: Missing content"⟩ :=
  claim10_empty_content_rejected promptArgs emptyContentEnv
    ⟨200, "OK", none, .ok ⟨none, some [⟨some ⟨some ""⟩⟩], none⟩⟩
    ⟨none, some [⟨some ⟨some ""⟩⟩], none⟩ []
    (by decide) rfl (by decide) rfl rfl

/-! ### C8 — dispatch boundary -/

/-- Claim C8: the dispatch boundary converts every operation failure
into an error-flagged result whose text is `Error: ` plus the
underlying message, passes successes through un-flagged, and maps an
unknown tool name to `Unknown tool: <name>`; the handler is a total
function into well-formed results, so no exception reaches the
transport. -/
theorem claim8_dispatch_error_envelope (name : String) (args : ArgsBag) (env : ServerEnv) :
    (∀ e fx, runTool name args env = (.error e, fx) →
        (handleCallTool name args env).1 = ⟨true, "Error: " ++ e.message⟩)
    ∧ (∀ t fx, runTool name args env = (.ok t, fx) →
        (handleCallTool name args env).1 = ⟨false, t⟩)
    ∧ (name ≠ "list_models" → name ≠ "prompt" →
        handleCallTool name args env = (⟨true, "Error: Unknown tool: " ++ name⟩, noEffects)) := by
  refine ⟨?_, ?_, ?_⟩
  · intro e fx h
    rw [handle_error_text name args env e fx h]
  · intro t fx h
    rw [handle_ok_text name args env t fx h]
  · intro h1 h2
    have hrun : runTool name args env
        = (.error (jsError ("Unknown tool: " ++ name)), noEffects) := by
      unfold runTool
      rw [if_neg h1, if_neg h2]
    rw [handle_error_text name args env _ noEffects hrun]
    have hassoc : "Error: " ++ ("Unknown tool: " ++ name) = "Error: Unknown tool: " ++ name := by
      rw [← String.append_assoc]
      rfl
    rw [show (jsError ("Unknown tool: " ++ name)).message = "Unknown tool: " ++ name from rfl,
      hassoc]

/-- Witness for C8: an unknown tool name produces the flagged
`Unknown tool` envelope. -/
theorem claim8_witness :
    handleCallTool "bogus" promptArgs deadEnv
      = (⟨true, "Error: Unknown tool: bogus"⟩, noEffects) :=
  (claim8_dispatch_error_envelope "bogus" promptArgs deadEnv).2.2 (by decide) (by decide)

/-! ### C9 — list_models rendering -/

/-- Rendering characterised against the filtered list. -/
theorem renderModels_eq (l : List OpenRouterModel) :
    renderModels l =
      if l = [] then "No models found matching criteria."
      else tableHeader ++ "\n" ++ String.intercalate "\n" (l.map modelRow) := by
  cases l with
  | nil => rfl
  | cons a t => simp [renderModels]

/-- Claim C9: with a fresh cached catalog, an empty filtered result
yields exactly the literal no-models message, and a non-empty one
yields the header plus one markdown row per surviving entry
(backticked id, Free/Paid tier from the `":free"` suffix, name). -/
theorem claim9_render_table (models : List OpenRouterModel) (free : Bool)
    (q : Option String) :
    (handleCallTool "list_models" ⟨free, q, false, .undef, .undef⟩
        ⟨0, .present 0 (some models), netFail, netFail⟩).1 =
      ⟨false,
        if filterModels free q models = [] then "No models found matching criteria."
        else "| Model ID | Tier | Name |\n| :--- | :--- | :--- |" ++ "\n" ++
          String.intercalate "\n" ((filterModels free q models).map (fun m =>
            "| \x60" ++ m.id ++ "\x60 | " ++
              (if jsEndsWith m.id ":free" then "Free" else "Paid") ++
              " | " ++ m.name ++ " |"))⟩ := by
  have h : (handleCallTool "list_models" ⟨free, q, false, .undef, .undef⟩
      ⟨0, .present 0 (some models), netFail, netFail⟩).1
      = ⟨false, renderModels (filterModels free q models)⟩ := rfl
  rw [h, renderModels_eq]
  rfl

end OpenRouterMCP
